import Mathlib

/-!
# Verification of the Voxel-Project repository

A shallow embedding of the repository's three components — the `Shader`
wrapper (Shader.cpp / Shader.h), the `Mesh` wrapper (Mesh.cpp / Mesh.h) and
the application `main` loop (main.cpp) — together with theorems settling the
specification's claims about them.

Modelling conventions:
* Machine floating-point values (`float`) are modelled as exact rationals
  (`Rat`); decimal literals of the source (`0.01f`, `0.0025f`, `0.2f`, …)
  are carried over as the exact decimal rationals they denote.
* The OpenGL / SDL runtime is modelled by an explicit device state
  (`GLState`), a chronological trace of the commands issued to the device
  (`List GLCmd`) and a console-output list (`List String`), bundled in
  `GLRun`.  Behaviour of the platform that the program merely observes
  (shader-compiler verdicts, link verdicts, the active-uniform table, init
  success flags, the event queue, the keyboard) is an environment
  (`GLEnv` / `Platform`) that the embedded program is a function of.
* GLM matrix operations (`perspective`, `lookAt`, `rotate`, `*`) are
  uninterpreted constructors of a symbolic matrix type `Mat4`: the claims
  only ever compare matrices for construction-equality, never numerically.
* glGetShaderInfoLog / glGetProgramInfoLog with a 512-byte buffer deliver at
  most 511 characters of the log; modelled by `String.take 511`.
-/

/-- A 3-component vector of (exact) floats, as used for GLM `vec3`. -/
abbrev Vec3 := Rat × Rat × Rat

/-- An angle argument of a GLM call: either a raw float value or the result
of `glm::radians` applied to a degree literal (kept symbolic, since π is
irrational). -/
inductive AngleVal where
  | raw (x : Rat)
  | radiansOfDegrees (deg : Rat)
deriving DecidableEq

/-- Symbolic GLM 4×4 matrices: one constructor per GLM operation the source
uses.  The claims compare matrices structurally, so the operations stay
uninterpreted. -/
inductive Mat4 where
  | identity
  | perspective (fovy : AngleVal) (aspect zNear zFar : Rat)
  | lookAt (eye center up : Vec3)
  | rotate (m : Mat4) (angle : Rat) (axis : Vec3)
  | mul (a b : Mat4)
deriving DecidableEq

/-- The two shader stages the source creates (`GL_VERTEX_SHADER`,
`GL_FRAGMENT_SHADER`). -/
inductive GLShaderType where
  | vertex
  | fragment
deriving DecidableEq

/-- A value written through a `glUniform*` call. -/
inductive UniformVal where
  | fVal (x : Rat)
  | m4Val (m : Mat4)
deriving DecidableEq

/-- Draw primitive mode (`GL_TRIANGLES` is the only one the source uses). -/
inductive DrawMode where
  | triangles
  | lines
deriving DecidableEq

/-- One command issued to the SDL / OpenGL runtime, in chronological order of
the calls the program makes. -/
inductive GLCmd where
  | sdlInit
  | createWindow (w : Nat)
  | createContext (c : Nat)
  | enableDepthTest
  | createShader (ty : GLShaderType) (n : Nat)
  | shaderSource (n : Nat) (src : String)
  | compileShader (n : Nat)
  | createProgram (n : Nat)
  | attachShader (p sh : Nat)
  | linkProgram (p : Nat)
  | deleteShader (n : Nat)
  | deleteProgram (n : Nat)
  | useProgram (n : Nat)
  | uniform1f (loc : Int) (v : Rat)
  | uniformMatrix4fv (loc : Int) (m : Mat4)
  | genVertexArray (n : Nat)
  | genBuffer (n : Nat)
  | bindVertexArray (n : Nat)
  | bindArrayBuffer (n : Nat)
  | bindElementArrayBuffer (n : Nat)
  | arrayBufferData (bytes : Nat)
  | elementArrayBufferData (bytes : Nat)
  | vertexAttribPointer (index size stride : Nat)
  | enableVertexAttribArray (index : Nat)
  | deleteVertexArray (n : Nat)
  | deleteBuffer (n : Nat)
  | clearColorCmd (r g b a : Rat)
  | clearCmd (color depth : Bool)
  | drawElements (mode : DrawMode) (count : Nat)
  | swapWindow
  | deleteContext (c : Nat)
  | destroyWindow (w : Nat)
  | sdlQuit
deriving DecidableEq

/-- The mutable state of a GL shader object (name → this record, in
`GLState.shaders`). -/
structure ShaderObj where
  shaderType : GLShaderType
  source : String
  compileStatus : Bool
  infoLog : String
deriving DecidableEq

/-- The mutable state of a GL program object.  `linkedSources` snapshots the
(type, source) pairs of the shaders attached at the (last) `glLinkProgram`,
which is what uniform reflection queries consult. -/
structure ProgramObj where
  attached : List Nat
  linkStatus : Bool
  infoLog : String
  linkedSources : List (GLShaderType × String)
deriving DecidableEq

/-- The graphics-device state the program manipulates. -/
structure GLState where
  /-- fresh-name allocator; GL object names are nonzero. -/
  nextName : Nat
  liveVertexArrays : List Nat
  liveBuffers : List Nat
  shaders : List (Nat × ShaderObj)
  programs : List (Nat × ProgramObj)
  boundVertexArray : Nat
  boundArrayBuffer : Nat
  boundElementArrayBuffer : Nat
  currentProgram : Nat
  /-- uniform values written so far: (program, location, value). -/
  uniformState : List (Nat × Int × UniformVal)
  depthTestEnabled : Bool
  clearColorState : Rat × Rat × Rat × Rat
deriving DecidableEq

/-- Device state at context creation. -/
def GLState.init : GLState :=
  { nextName := 1, liveVertexArrays := [], liveBuffers := [], shaders := [],
    programs := [], boundVertexArray := 0, boundArrayBuffer := 0,
    boundElementArrayBuffer := 0, currentProgram := 0, uniformState := [],
    depthTestEnabled := false, clearColorState := (0, 0, 0, 1) }

/-- A run: device state, the chronological command trace, and the console
output lines produced so far. -/
structure GLRun where
  st : GLState
  trace : List GLCmd
  out : List String
deriving DecidableEq

/-- Fresh run: pristine device, empty trace, no output. -/
def GLRun.init : GLRun := { st := GLState.init, trace := [], out := [] }

/-- Append one console output line (a `std::cout … << std::endl` statement). -/
def consoleOut (msg : String) (r : GLRun) : GLRun :=
  { r with out := r.out ++ [msg] }

/-- The platform behaviour the program observes but does not control: the
shader compiler's and linker's verdicts and logs, and the linked program's
active-uniform reflection table (all as functions of the shader sources). -/
structure GLEnv where
  compileOk : GLShaderType → String → Bool
  compileLog : GLShaderType → String → String
  linkOk : List (GLShaderType × String) → Bool
  linkLog : List (GLShaderType × String) → String
  activeUniforms : List (GLShaderType × String) → List String
  uniformLoc : List (GLShaderType × String) → String → Nat

/-- Association lookup in an object store. -/
def assocFind {α : Type} (l : List (Nat × α)) (k : Nat) : Option α :=
  match l with
  | [] => none
  | p :: rest => if p.1 = k then some p.2 else assocFind rest k

/-- Pointwise update of an object store at one key. -/
def assocUpd {α : Type} (l : List (Nat × α)) (k : Nat) (f : α → α) :
    List (Nat × α) :=
  l.map fun p => if p.1 = k then (p.1, f p.2) else p

/-! ## GL API primitives (only those the source calls) -/

/-- `glCreateShader`: allocates a fresh shader object name. -/
def glCreateShader (ty : GLShaderType) (r : GLRun) : Nat × GLRun :=
  let n := r.st.nextName
  (n, { r with
        st := { r.st with nextName := n + 1,
                          shaders := (n, ⟨ty, "", false, ""⟩) :: r.st.shaders },
        trace := r.trace ++ [GLCmd.createShader ty n] })

/-- `glShaderSource (shader, 1, &src, NULL)`: stores the source string. -/
def glShaderSource (n : Nat) (src : String) (r : GLRun) : GLRun :=
  { r with
    st := { r.st with shaders := assocUpd r.st.shaders n fun o => { o with source := src } },
    trace := r.trace ++ [GLCmd.shaderSource n src] }

/-- `glCompileShader`: the compiler verdict and log come from the
environment, as functions of stage and source. -/
def glCompileShader (env : GLEnv) (n : Nat) (r : GLRun) : GLRun :=
  { r with
    st := { r.st with shaders := assocUpd r.st.shaders n fun o =>
              { o with compileStatus := env.compileOk o.shaderType o.source,
                       infoLog := env.compileLog o.shaderType o.source } },
    trace := r.trace ++ [GLCmd.compileShader n] }

/-- `glGetShaderiv (shader, GL_COMPILE_STATUS, &success)`: pure state read. -/
def glGetShaderCompileStatus (n : Nat) (s : GLState) : Bool :=
  match assocFind s.shaders n with
  | none => false
  | some o => o.compileStatus

/-- `glGetShaderInfoLog (shader, maxLen, NULL, buf)`: delivers at most
`maxLen - 1` characters plus a terminating null. -/
def glGetShaderInfoLogStr (n maxLen : Nat) (s : GLState) : String :=
  match assocFind s.shaders n with
  | none => ""
  | some o => o.infoLog.take (maxLen - 1)

/-- `glCreateProgram`: allocates a fresh program object name. -/
def glCreateProgram (r : GLRun) : Nat × GLRun :=
  let n := r.st.nextName
  (n, { r with
        st := { r.st with nextName := n + 1,
                          programs := (n, ⟨[], false, "", []⟩) :: r.st.programs },
        trace := r.trace ++ [GLCmd.createProgram n] })

/-- `glAttachShader`. -/
def glAttachShader (p sh : Nat) (r : GLRun) : GLRun :=
  { r with
    st := { r.st with programs := assocUpd r.st.programs p fun o =>
              { o with attached := o.attached ++ [sh] } },
    trace := r.trace ++ [GLCmd.attachShader p sh] }

/-- `glLinkProgram`: snapshots the attached shaders' (stage, source) pairs;
verdict and log come from the environment. -/
def glLinkProgram (env : GLEnv) (p : Nat) (r : GLRun) : GLRun :=
  { r with
    st := { r.st with programs := assocUpd r.st.programs p fun o =>
              let sources := o.attached.filterMap fun sh =>
                (assocFind r.st.shaders sh).map fun so => (so.shaderType, so.source)
              { o with linkStatus := env.linkOk sources,
                       infoLog := env.linkLog sources,
                       linkedSources := sources } },
    trace := r.trace ++ [GLCmd.linkProgram p] }

/-- `glGetProgramiv (program, GL_LINK_STATUS, &success)`. -/
def glGetProgramLinkStatus (p : Nat) (s : GLState) : Bool :=
  match assocFind s.programs p with
  | none => false
  | some o => o.linkStatus

/-- `glGetProgramInfoLog (program, maxLen, NULL, buf)`. -/
def glGetProgramInfoLogStr (p maxLen : Nat) (s : GLState) : String :=
  match assocFind s.programs p with
  | none => ""
  | some o => o.infoLog.take (maxLen - 1)

/-- `glDeleteShader` (the program's link snapshot is unaffected, as in GL). -/
def glDeleteShader (n : Nat) (r : GLRun) : GLRun :=
  { r with
    st := { r.st with shaders := r.st.shaders.filter fun p => p.1 ≠ n },
    trace := r.trace ++ [GLCmd.deleteShader n] }

/-- `glDeleteProgram`. -/
def glDeleteProgram (n : Nat) (r : GLRun) : GLRun :=
  { r with
    st := { r.st with programs := r.st.programs.filter fun p => p.1 ≠ n },
    trace := r.trace ++ [GLCmd.deleteProgram n] }

/-- `glUseProgram`. -/
def glUseProgram (n : Nat) (r : GLRun) : GLRun :=
  { r with st := { r.st with currentProgram := n },
           trace := r.trace ++ [GLCmd.useProgram n] }

/-- `glGetUniformLocation`: -1 unless the program linked successfully and the
name is an active uniform of the linked program (then a nonnegative
location from the reflection table). -/
def glGetUniformLocation (env : GLEnv) (programs : List (Nat × ProgramObj))
    (program : Nat) (name : String) : Int :=
  match assocFind programs program with
  | none => -1
  | some o =>
      if o.linkStatus ∧ name ∈ env.activeUniforms o.linkedSources then
        Int.ofNat (env.uniformLoc o.linkedSources name)
      else
        -1

/-- `glUniform1f`: with location -1 the data is silently ignored; with no
program current the call errors without changing state. -/
def glUniform1f (loc : Int) (v : Rat) (r : GLRun) : GLRun :=
  { r with
    trace := r.trace ++ [GLCmd.uniform1f loc v],
    st := { r.st with uniformState :=
              if loc = -1 ∨ r.st.currentProgram = 0 then r.st.uniformState
              else (r.st.currentProgram, loc, UniformVal.fVal v) :: r.st.uniformState } }

/-- `glUniformMatrix4fv (loc, 1, GL_FALSE, ptr)`: same ignore-on-(-1)
semantics. -/
def glUniformMatrix4fv (loc : Int) (m : Mat4) (r : GLRun) : GLRun :=
  { r with
    trace := r.trace ++ [GLCmd.uniformMatrix4fv loc m],
    st := { r.st with uniformState :=
              if loc = -1 ∨ r.st.currentProgram = 0 then r.st.uniformState
              else (r.st.currentProgram, loc, UniformVal.m4Val m) :: r.st.uniformState } }

/-- `glGenVertexArrays (1, &x)`. -/
def glGenVertexArrays1 (r : GLRun) : Nat × GLRun :=
  let n := r.st.nextName
  (n, { r with
        st := { r.st with nextName := n + 1,
                          liveVertexArrays := n :: r.st.liveVertexArrays },
        trace := r.trace ++ [GLCmd.genVertexArray n] })

/-- `glGenBuffers (1, &x)`. -/
def glGenBuffers1 (r : GLRun) : Nat × GLRun :=
  let n := r.st.nextName
  (n, { r with
        st := { r.st with nextName := n + 1,
                          liveBuffers := n :: r.st.liveBuffers },
        trace := r.trace ++ [GLCmd.genBuffer n] })

/-- `glBindVertexArray`. -/
def glBindVertexArray (n : Nat) (r : GLRun) : GLRun :=
  { r with st := { r.st with boundVertexArray := n },
           trace := r.trace ++ [GLCmd.bindVertexArray n] }

/-- `glBindBuffer (GL_ARRAY_BUFFER, n)`. -/
def glBindArrayBuffer (n : Nat) (r : GLRun) : GLRun :=
  { r with st := { r.st with boundArrayBuffer := n },
           trace := r.trace ++ [GLCmd.bindArrayBuffer n] }

/-- `glBindBuffer (GL_ELEMENT_ARRAY_BUFFER, n)`. -/
def glBindElementArrayBuffer (n : Nat) (r : GLRun) : GLRun :=
  { r with st := { r.st with boundElementArrayBuffer := n },
           trace := r.trace ++ [GLCmd.bindElementArrayBuffer n] }

/-- `glBufferData (GL_ARRAY_BUFFER, bytes, data, GL_STATIC_DRAW)`. -/
def glArrayBufferData (bytes : Nat) (r : GLRun) : GLRun :=
  { r with trace := r.trace ++ [GLCmd.arrayBufferData bytes] }

/-- `glBufferData (GL_ELEMENT_ARRAY_BUFFER, bytes, data, GL_STATIC_DRAW)`. -/
def glElementArrayBufferData (bytes : Nat) (r : GLRun) : GLRun :=
  { r with trace := r.trace ++ [GLCmd.elementArrayBufferData bytes] }

/-- `glVertexAttribPointer (index, size, GL_FLOAT, GL_FALSE, stride, 0)`. -/
def glVertexAttribPointerCmd (index size stride : Nat) (r : GLRun) : GLRun :=
  { r with trace := r.trace ++ [GLCmd.vertexAttribPointer index size stride] }

/-- `glEnableVertexAttribArray`. -/
def glEnableVertexAttribArrayCmd (index : Nat) (r : GLRun) : GLRun :=
  { r with trace := r.trace ++ [GLCmd.enableVertexAttribArray index] }

/-- `glDeleteVertexArrays (1, &x)`: the name is removed from the live set. -/
def glDeleteVertexArray (n : Nat) (r : GLRun) : GLRun :=
  { r with
    st := { r.st with liveVertexArrays := r.st.liveVertexArrays.filter (· ≠ n) },
    trace := r.trace ++ [GLCmd.deleteVertexArray n] }

/-- `glDeleteBuffers (1, &x)`. -/
def glDeleteBuffer (n : Nat) (r : GLRun) : GLRun :=
  { r with
    st := { r.st with liveBuffers := r.st.liveBuffers.filter (· ≠ n) },
    trace := r.trace ++ [GLCmd.deleteBuffer n] }

/-- `glClearColor`. -/
def glClearColor (cr cg cb ca : Rat) (r : GLRun) : GLRun :=
  { r with st := { r.st with clearColorState := (cr, cg, cb, ca) },
           trace := r.trace ++ [GLCmd.clearColorCmd cr cg cb ca] }

/-- `glClear (GL_COLOR_BUFFER_BIT | GL_DEPTH_BUFFER_BIT)`. -/
def glClear (color depth : Bool) (r : GLRun) : GLRun :=
  { r with trace := r.trace ++ [GLCmd.clearCmd color depth] }

/-- `glDrawElements (GL_TRIANGLES, count, GL_UNSIGNED_INT, 0)`. -/
def glDrawElementsTriangles (count : Nat) (r : GLRun) : GLRun :=
  { r with trace := r.trace ++ [GLCmd.drawElements DrawMode.triangles count] }

/-- `glEnable (GL_DEPTH_TEST)`. -/
def glEnableDepthTest (r : GLRun) : GLRun :=
  { r with st := { r.st with depthTestEnabled := true },
           trace := r.trace ++ [GLCmd.enableDepthTest] }

/-- `SDL_GL_SwapWindow (window)`. -/
def sdlGLSwapWindow (r : GLRun) : GLRun :=
  { r with trace := r.trace ++ [GLCmd.swapWindow] }

/-! ## Shader (Shader.cpp) -/

/-- The `Shader` class: its only field is the program handle. -/
structure Shader where
  programID : Nat
deriving DecidableEq

/-- `Shader::checkShaderCompileErrors`: on failure, retrieves the (512-byte
truncated) log and prints the diagnostic with the stage name; printing
happens only in the failure branch. -/
def Shader.checkShaderCompileErrors (shader : Nat) (ty : String) (r : GLRun) : GLRun :=
  let success := glGetShaderCompileStatus shader r.st
  { r with out := r.out ++
      (if success then []
       else ["ERROR::SHADER::" ++ ty ++ "::COMPILATION_FAILED\n" ++
             glGetShaderInfoLogStr shader 512 r.st]) }

/-- `Shader::checkProgramLinkErrors`. -/
def Shader.checkProgramLinkErrors (program : Nat) (r : GLRun) : GLRun :=
  let success := glGetProgramLinkStatus program r.st
  { r with out := r.out ++
      (if success then []
       else ["ERROR::PROGRAM::LINKING_FAILED\n" ++
             glGetProgramInfoLogStr program 512 r.st]) }

/-- `Shader::Shader (vertexSource, fragmentSource)`: compile the two stages,
check each, create and link the program, check the link, delete the
temporary shader objects.  Construction always completes and returns the
object holding the handle `glCreateProgram` returned. -/
def Shader.construct (env : GLEnv) (vertexSource fragmentSource : String)
    (r : GLRun) : Shader × GLRun :=
  let vres := glCreateShader GLShaderType.vertex r
  let vertexShader := vres.1
  let r := glShaderSource vertexShader vertexSource vres.2
  let r := glCompileShader env vertexShader r
  let r := Shader.checkShaderCompileErrors vertexShader "VERTEX" r
  let fres := glCreateShader GLShaderType.fragment r
  let fragmentShader := fres.1
  let r := glShaderSource fragmentShader fragmentSource fres.2
  let r := glCompileShader env fragmentShader r
  let r := Shader.checkShaderCompileErrors fragmentShader "FRAGMENT" r
  let pres := glCreateProgram r
  let programID := pres.1
  let r := glAttachShader programID vertexShader pres.2
  let r := glAttachShader programID fragmentShader r
  let r := glLinkProgram env programID r
  let r := Shader.checkProgramLinkErrors programID r
  let r := glDeleteShader vertexShader r
  let r := glDeleteShader fragmentShader r
  (⟨programID⟩, r)

/-- `Shader::~Shader`. -/
def Shader.destroy (sh : Shader) (r : GLRun) : GLRun :=
  glDeleteProgram sh.programID r

/-- `Shader::use`. -/
def Shader.use (sh : Shader) (r : GLRun) : GLRun :=
  glUseProgram sh.programID r

/-- `Shader::setFloat (name, value)`: look up the location, then write. -/
def Shader.setFloat (env : GLEnv) (sh : Shader) (name : String) (value : Rat)
    (r : GLRun) : GLRun :=
  let location := glGetUniformLocation env r.st.programs sh.programID name
  glUniform1f location value r

/-- `Shader::setMat4 (name, value)`. -/
def Shader.setMat4 (env : GLEnv) (sh : Shader) (name : String) (value : Mat4)
    (r : GLRun) : GLRun :=
  glUniformMatrix4fv (glGetUniformLocation env r.st.programs sh.programID name) value r

/-! ## Mesh (Mesh.cpp) -/

/-- The `Mesh` class fields: the three GPU object handles and the stored
index count. -/
structure Mesh where
  VAO : Nat
  VBO : Nat
  EBO : Nat
  indexCount : Nat
deriving DecidableEq

/-- `Mesh::setupMesh`: store the index count, generate the VAO/VBO/EBO,
upload both arrays (`sizeof(float)` = `sizeof(unsigned int)` = 4 bytes),
declare attribute 0 as 3 tightly packed floats, unbind. -/
def Mesh.setupMesh (vertices : List Rat) (indices : List Nat) (r : GLRun) :
    Mesh × GLRun :=
  let indexCount := indices.length
  let ares := glGenVertexArrays1 r
  let vaoN := ares.1
  let bres := glGenBuffers1 ares.2
  let vboN := bres.1
  let cres := glGenBuffers1 bres.2
  let eboN := cres.1
  let r := glBindVertexArray vaoN cres.2
  let r := glBindArrayBuffer vboN r
  let r := glArrayBufferData (vertices.length * 4) r
  let r := glBindElementArrayBuffer eboN r
  let r := glElementArrayBufferData (indices.length * 4) r
  let r := glVertexAttribPointerCmd 0 3 (3 * 4) r
  let r := glEnableVertexAttribArrayCmd 0 r
  let r := glBindArrayBuffer 0 r
  let r := glBindVertexArray 0 r
  (⟨vaoN, vboN, eboN, indexCount⟩, r)

/-- `Mesh::Mesh (vertices, indices)`: simply calls `setupMesh`. -/
def Mesh.construct (vertices : List Rat) (indices : List Nat) (r : GLRun) :
    Mesh × GLRun :=
  Mesh.setupMesh vertices indices r

/-- `Mesh::~Mesh`: delete the VAO, then the VBO, then the EBO. -/
def Mesh.destroy (m : Mesh) (r : GLRun) : GLRun :=
  let r := glDeleteVertexArray m.VAO r
  let r := glDeleteBuffer m.VBO r
  glDeleteBuffer m.EBO r

/-- `Mesh::draw`: bind the VAO, issue one indexed triangle-list draw over the
stored index count, unbind. -/
def Mesh.draw (m : Mesh) (r : GLRun) : GLRun :=
  let r := glBindVertexArray m.VAO r
  let r := glDrawElementsTriangles m.indexCount r
  glBindVertexArray 0 r

/-! ## Application loop (main.cpp) -/

/-- The SDL events the loop distinguishes: `SDL_QUIT` versus anything else. -/
inductive SDLEvent where
  | quit
  | other
deriving DecidableEq

/-- One sample of `SDL_GetKeyboardState`, restricted to the scancodes the
loop reads. -/
structure Keys where
  w : Bool
  s : Bool
  a : Bool
  d : Bool
  space : Bool
  lshift : Bool
deriving DecidableEq

/-- No key held. -/
def Keys.none : Keys :=
  { w := false, s := false, a := false, d := false, space := false, lshift := false }

/-- The local variables of the main loop. -/
structure LoopVars where
  running : Bool
  cameraX : Rat
  cameraY : Rat
  cameraZ : Rat
  angle : Rat
deriving DecidableEq

/-- Their values at loop entry (main.cpp lines 145, 149, 151). -/
def initLoopVars : LoopVars :=
  { running := true, cameraX := 0, cameraY := 0, cameraZ := -5, angle := 0 }

/-- `float moveSpeed = 0.01f` — movement speed per frame. -/
def moveSpeed : Rat := 0.01

/-- The inner `while (SDL_PollEvent(&event))` loop: drains the pending
events; an `SDL_QUIT` event clears `running`. -/
def pollQuit : List SDLEvent → Bool → Bool
  | [], running => running
  | e :: rest, running =>
      pollQuit rest (if e = SDLEvent.quit then false else running)

/-- `glm::perspective (glm::radians(60.0f), 800.0f / 600.0f, 0.01f, 100.0f)`. -/
def projection : Mat4 :=
  Mat4.perspective (AngleVal.radiansOfDegrees 60) (800 / 600) 0.01 100

/-- `glm::lookAt (vec3(2,2,2), vec3(0,0,0), vec3(0,1,0))`: computed once,
before the loop, from fixed constants. -/
def view : Mat4 :=
  Mat4.lookAt (2, 2, 2) (0, 0, 0) (0, 1, 0)

/-- The model matrix recomputed each frame:
`glm::rotate (glm::mat4(1.0f), angle, glm::vec3(0,1,0))`. -/
def modelMatrix (angle : Rat) : Mat4 :=
  Mat4.rotate Mat4.identity angle (0, 1, 0)

/-- The matrix uploaded each frame: `projection * view * model`. -/
def mvpMatrix (angle : Rat) : Mat4 :=
  Mat4.mul (Mat4.mul projection view) (modelMatrix angle)

/-- The embedded vertex-stage GLSL source (main.cpp lines 81-90). -/
def vertexShaderSource : String :=
  "\n        #version 330 core\n        layout(location = 0) in vec3 aPos; // Vertex position input\n\n        uniform mat4 mvp; // Rotation angle uniform\n\n        void main() \x7b\n            gl_Position = mvp * vec4(aPos, 1.0); // Apply transformation\n        \x7d\n    "

/-- The embedded fragment-stage GLSL source (main.cpp lines 92-99). -/
def fragmentShaderSource : String :=
  "\n        #version 330 core\n        out vec4 FragColor; // Output fragment color\n\n        void main() \x7b\n            FragColor = vec4(1.0, 0.5, 0.2, 1.0); // Set constant color (orange)\n        \x7d\n    "

/-- The hardcoded cube vertex positions (main.cpp lines 105-116). -/
def cubeVertices : List Rat :=
  [-0.5, -0.5,  0.5,
    0.5, -0.5,  0.5,
    0.5,  0.5,  0.5,
   -0.5,  0.5,  0.5,
   -0.5, -0.5, -0.5,
    0.5, -0.5, -0.5,
    0.5,  0.5, -0.5,
   -0.5,  0.5, -0.5]

/-- The hardcoded cube indices (main.cpp lines 118-131). -/
def cubeIndices : List Nat :=
  [0, 1, 2,  2, 3, 0,
   1, 5, 6,  6, 2, 1,
   5, 4, 7,  7, 6, 5,
   4, 0, 3,  3, 7, 4,
   3, 2, 6,  6, 7, 3,
   0, 1, 5,  5, 4, 0]

/-- The whole platform behaviour `main` observes: init outcomes, the
SDL error text, the GL environment, the event batches each iteration's
poll loop drains, and the keyboard state each iteration samples. -/
structure Platform where
  sdlInitOk : Bool
  sdlError : String
  windowOk : Bool
  contextOk : Bool
  glewOk : Bool
  env : GLEnv
  eventBatches : Nat → List SDLEvent
  keys : Nat → Keys

/-- One iteration of the `while (running)` loop (main.cpp lines 154-191), in
source order: drain events (quit check), integrate the camera from the
keyboard sample, recompute the model matrix and the mvp product, clear
color+depth, activate the shader, upload the `"mvp"` uniform, draw the cube,
present, and advance the rotation angle by `0.0025f`.  The camera variables
feed nothing in the body — `view` is the fixed pre-loop constant. -/
def mainIteration (env : GLEnv) (shader : Shader) (cube : Mesh)
    (events : List SDLEvent) (k : Keys) (v : LoopVars) (r : GLRun) :
    LoopVars × GLRun :=
  let running := pollQuit events v.running
  let cameraZ := if k.w then v.cameraZ + moveSpeed else v.cameraZ
  let cameraZ := if k.s then cameraZ - moveSpeed else cameraZ
  let cameraX := if k.d then v.cameraX + moveSpeed else v.cameraX
  let cameraX := if k.a then cameraX - moveSpeed else cameraX
  let cameraY := if k.space then v.cameraY + moveSpeed else v.cameraY
  let cameraY := if k.lshift then cameraY - moveSpeed else cameraY
  let mvp := mvpMatrix v.angle
  let r := glClearColor 0.2 0.3 0.3 1 r
  let r := glClear true true r
  let r := Shader.use shader r
  let r := Shader.setMat4 env shader "mvp" mvp r
  let r := Mesh.draw cube r
  let r := sdlGLSwapWindow r
  let angle := v.angle + 0.0025
  ({ running := running, cameraX := cameraX, cameraY := cameraY,
     cameraZ := cameraZ, angle := angle }, r)

/-- The `while (running)` loop: `i` is the iteration index (used to sample
the platform's event batches and keyboard), `fuel` bounds the number of
iterations the model unrolls (the real loop runs unboundedly until
`running` is cleared). -/
def runLoop (p : Platform) (shader : Shader) (cube : Mesh) :
    Nat → Nat → LoopVars → GLRun → LoopVars × GLRun
  | _, 0, v, r => (v, r)
  | i, fuel + 1, v, r =>
      if v.running then
        let step := mainIteration p.env shader cube (p.eventBatches i) (p.keys i) v r
        runLoop p shader cube (i + 1) fuel step.1 step.2
      else (v, r)

/-- `main` (main.cpp lines 32-199).  Returns the process exit code and the
final run.  The SDL_GL_SetAttribute calls and the `glewExperimental`
assignment configure context creation without observable state here and are
not traced; window and context handles are modelled as 1 on success and 0
(null) on failure; `SDL_GetKeyboardState` is modelled by the platform's
per-iteration keyboard samples.  The `Shader` and `Mesh` destructors run at
scope exit, after `SDL_Quit`, in reverse construction order. -/
def mainProgram (p : Platform) (fuel : Nat) : Int × GLRun :=
  let r := { GLRun.init with trace := [GLCmd.sdlInit] }
  if p.sdlInitOk = false then
    (1, consoleOut ("SDL could not initialize! SDL_Error: " ++ p.sdlError) r)
  else
    let window := if p.windowOk then 1 else 0
    let r := { r with trace := r.trace ++ [GLCmd.createWindow window] }
    if p.windowOk = false then
      let r := consoleOut ("Window could not be created! SDL_Error: " ++ p.sdlError) r
      (1, { r with trace := r.trace ++ [GLCmd.sdlQuit] })
    else
      let glContext := if p.contextOk then 1 else 0
      let r := { r with trace := r.trace ++ [GLCmd.createContext glContext] }
      if p.contextOk = false then
        let r := consoleOut ("OpenGL context could not be created! SDL_Error: " ++ p.sdlError) r
        (1, { r with trace := r.trace ++
                [GLCmd.destroyWindow window, GLCmd.sdlQuit] })
      else
        if p.glewOk = false then
          let r := consoleOut "GLEW could not initialize!" r
          (1, { r with trace := r.trace ++
                  [GLCmd.deleteContext glContext, GLCmd.destroyWindow window,
                   GLCmd.sdlQuit] })
        else
          let r := glEnableDepthTest r
          let sres := Shader.construct p.env vertexShaderSource fragmentShaderSource r
          let shader := sres.1
          let mres := Mesh.construct cubeVertices cubeIndices sres.2
          let cube := mres.1
          let lres := runLoop p shader cube 0 fuel initLoopVars mres.2
          let r := lres.2
          let r := { r with trace := r.trace ++
                      [GLCmd.deleteContext glContext, GLCmd.destroyWindow window,
                       GLCmd.sdlQuit] }
          let r := Mesh.destroy cube r
          let r := Shader.destroy shader r
          (0, r)

/-! ## Trace counters -/

/-- Number of trace commands matched by a discriminator. -/
def countCmds (pred : GLCmd → Bool) (t : List GLCmd) : Nat :=
  (t.filter pred).length

def isDrawElements : GLCmd → Bool
  | GLCmd.drawElements _ _ => true
  | _ => false

def isSwapWindow : GLCmd → Bool
  | GLCmd.swapWindow => true
  | _ => false

def isGenVertexArray : GLCmd → Bool
  | GLCmd.genVertexArray _ => true
  | _ => false

def isGenBuffer : GLCmd → Bool
  | GLCmd.genBuffer _ => true
  | _ => false

def isDeleteVertexArray : GLCmd → Bool
  | GLCmd.deleteVertexArray _ => true
  | _ => false

def isDeleteBuffer : GLCmd → Bool
  | GLCmd.deleteBuffer _ => true
  | _ => false

def isSdlInit : GLCmd → Bool
  | GLCmd.sdlInit => true
  | _ => false

def isCreateWindow : GLCmd → Bool
  | GLCmd.createWindow _ => true
  | _ => false

def isCreateContext : GLCmd → Bool
  | GLCmd.createContext _ => true
  | _ => false

def isDeleteContext : GLCmd → Bool
  | GLCmd.deleteContext _ => true
  | _ => false

def isDestroyWindow : GLCmd → Bool
  | GLCmd.destroyWindow _ => true
  | _ => false

def isSdlQuit : GLCmd → Bool
  | GLCmd.sdlQuit => true
  | _ => false

/-- The well-formedness condition of the spec: every index addresses one of
the `vertices.length / 3` three-float vertices. -/
def wellFormedMeshInput (vertices : List Rat) (indices : List Nat) : Prop :=
  ∀ i ∈ indices, i < vertices.length / 3

instance (vertices : List Rat) (indices : List Nat) :
    Decidable (wellFormedMeshInput vertices indices) := by
  unfold wellFormedMeshInput; infer_instance

/-- The full command trace of one `Shader` construction on a pristine device:
it is the same for every compiler/linker outcome — construction always runs
to completion (no exception, no abort). -/
def shaderConstructTrace (vs fs : String) : List GLCmd :=
  [GLCmd.createShader GLShaderType.vertex 1, GLCmd.shaderSource 1 vs,
   GLCmd.compileShader 1, GLCmd.createShader GLShaderType.fragment 2,
   GLCmd.shaderSource 2 fs, GLCmd.compileShader 2, GLCmd.createProgram 3,
   GLCmd.attachShader 3 1, GLCmd.attachShader 3 2, GLCmd.linkProgram 3,
   GLCmd.deleteShader 1, GLCmd.deleteShader 2]

/-- The (stage, source) pairs attached to the demo program at link time. -/
def linkedPair (vs fs : String) : List (GLShaderType × String) :=
  [(GLShaderType.vertex, vs), (GLShaderType.fragment, fs)]

/-- Number of the loop iterations `i, i+1, …, i+fuel-1` in which the selected
key is down in the platform's keyboard samples. -/
def heldCount (sel : Keys → Bool) (keys : Nat → Keys) : Nat → Nat → Nat
  | _, 0 => 0
  | i, fuel + 1 => (if sel (keys i) then 1 else 0) + heldCount sel keys (i + 1) fuel

/-- The handle held by the `Shader` the demo constructs (the third GL name
allocated after context creation). -/
def demoShader : Shader := ⟨3⟩

/-- The handles and index count of the `Mesh` the demo constructs. -/
def demoCube : Mesh := ⟨4, 5, 6, 36⟩

/-- An environment whose linked program has `"mvp"` as its only active
uniform and whose compiler and linker always succeed (used by witnesses). -/
def envMvpOnly : GLEnv :=
  { compileOk := fun _ _ => true, compileLog := fun _ _ => "",
    linkOk := fun _ => true, linkLog := fun _ => "",
    activeUniforms := fun _ => ["mvp"], uniformLoc := fun _ _ => 0 }

/-- A keyboard sample with only D (move right) held. -/
def keysDHeld : Keys :=
  { w := false, s := false, a := false, d := true, space := false, lshift := false }

/-- A platform where init succeeds, no events ever arrive, and D is held in
every frame. -/
def platformDHeld : Platform :=
  { sdlInitOk := true, sdlError := "", windowOk := true, contextOk := true,
    glewOk := true, env := envMvpOnly, eventBatches := fun _ => [],
    keys := fun _ => keysDHeld }

/-- A platform where init succeeds and the only queued event is an immediate
quit. -/
def platformQuit : Platform :=
  { sdlInitOk := true, sdlError := "", windowOk := true, contextOk := true,
    glewOk := true, env := envMvpOnly,
    eventBatches := fun i => if i = 0 then [SDLEvent.quit] else [],
    keys := fun _ => Keys.none }

/-- A platform where the extension loader fails to initialize. -/
def platformGlewFails : Platform :=
  { sdlInitOk := true, sdlError := "", windowOk := true, contextOk := true,
    glewOk := false, env := envMvpOnly, eventBatches := fun _ => [],
    keys := fun _ => Keys.none }

/-- An environment whose shader compiler rejects the vertex stage (C5
witness). -/
def envVertexFails : GLEnv :=
  { compileOk := fun ty _ => match ty with
      | GLShaderType.vertex => false
      | GLShaderType.fragment => true,
    compileLog := fun _ _ => "0:1: syntax error",
    linkOk := fun _ => true, linkLog := fun _ => "",
    activeUniforms := fun _ => [], uniformLoc := fun _ _ => 0 }

/-- An environment that compiles both stages but fails the link (C6
witness). -/
def envLinkFails : GLEnv :=
  { compileOk := fun _ _ => true, compileLog := fun _ _ => "",
    linkOk := fun _ => false, linkLog := fun _ => "unresolved symbol",
    activeUniforms := fun _ => [], uniformLoc := fun _ _ => 0 }

/-! ## Claim theorems -/

/-- C9: for every `Mesh`, `draw()` issues exactly one indexed triangle-list
draw call covering exactly the stored index count (which equals the length
of the construction-time index list), and afterwards the device's current
vertex-array binding is 0; `draw` changes nothing else (in particular no
`Mesh` field — `draw` does not touch the object). -/
theorem mesh_draw_one_indexed_draw_then_unbound (m : Mesh) (r : GLRun)
    (vertices : List Rat) (indices : List Nat) (r0 : GLRun) :
    (Mesh.draw m r).trace = r.trace ++
        [GLCmd.bindVertexArray m.VAO,
         GLCmd.drawElements DrawMode.triangles m.indexCount,
         GLCmd.bindVertexArray 0]
    ∧ countCmds isDrawElements (Mesh.draw m r).trace =
        countCmds isDrawElements r.trace + 1
    ∧ (Mesh.draw m r).st = { r.st with boundVertexArray := 0 }
    ∧ (Mesh.draw m r).st.boundVertexArray = 0
    ∧ (Mesh.draw m r).out = r.out
    ∧ (Mesh.construct vertices indices r0).1.indexCount = indices.length := by
  refine ⟨?_, ?_, ?_, ?_, ?_, ?_⟩ <;>
    simp [Mesh.draw, Mesh.construct, Mesh.setupMesh, glBindVertexArray,
      glDrawElementsTriangles, glGenVertexArrays1, glGenBuffers1,
      glBindArrayBuffer, glArrayBufferData, glBindElementArrayBuffer,
      glElementArrayBufferData, glVertexAttribPointerCmd,
      glEnableVertexAttribArrayCmd, countCmds, isDrawElements,
      List.filter_append]

/-- C4: for any well-formed vertex/index pair, constructing a `Mesh` on a
pristine device and then destroying it performs exactly one allocation and
exactly one release of each of the three GPU resources — the vertex array
and the two buffers all allocated together at the head of the constructor
and all released together in the destructor — leaving the live-allocation
count at zero afterwards.  The trace equation exhibits the whole cycle. -/
theorem mesh_construct_destroy_no_leak (vertices : List Rat) (indices : List Nat)
    (hwf : wellFormedMeshInput vertices indices) :
    (Mesh.destroy (Mesh.construct vertices indices GLRun.init).1
        (Mesh.construct vertices indices GLRun.init).2).trace =
      [GLCmd.genVertexArray 1, GLCmd.genBuffer 2, GLCmd.genBuffer 3,
       GLCmd.bindVertexArray 1, GLCmd.bindArrayBuffer 2,
       GLCmd.arrayBufferData (vertices.length * 4),
       GLCmd.bindElementArrayBuffer 3,
       GLCmd.elementArrayBufferData (indices.length * 4),
       GLCmd.vertexAttribPointer 0 3 12, GLCmd.enableVertexAttribArray 0,
       GLCmd.bindArrayBuffer 0, GLCmd.bindVertexArray 0,
       GLCmd.deleteVertexArray 1, GLCmd.deleteBuffer 2, GLCmd.deleteBuffer 3]
    ∧ countCmds isGenVertexArray
        (Mesh.destroy (Mesh.construct vertices indices GLRun.init).1
          (Mesh.construct vertices indices GLRun.init).2).trace = 1
    ∧ countCmds isDeleteVertexArray
        (Mesh.destroy (Mesh.construct vertices indices GLRun.init).1
          (Mesh.construct vertices indices GLRun.init).2).trace = 1
    ∧ countCmds isGenBuffer
        (Mesh.destroy (Mesh.construct vertices indices GLRun.init).1
          (Mesh.construct vertices indices GLRun.init).2).trace = 2
    ∧ countCmds isDeleteBuffer
        (Mesh.destroy (Mesh.construct vertices indices GLRun.init).1
          (Mesh.construct vertices indices GLRun.init).2).trace = 2
    ∧ (Mesh.destroy (Mesh.construct vertices indices GLRun.init).1
        (Mesh.construct vertices indices GLRun.init).2).st.liveVertexArrays = []
    ∧ (Mesh.destroy (Mesh.construct vertices indices GLRun.init).1
        (Mesh.construct vertices indices GLRun.init).2).st.liveBuffers = [] := by
  refine ⟨?_, ?_, ?_, ?_, ?_, ?_, ?_⟩ <;>
    simp [Mesh.construct, Mesh.setupMesh, Mesh.destroy, GLRun.init, GLState.init,
      glGenVertexArrays1, glGenBuffers1, glBindVertexArray, glBindArrayBuffer,
      glArrayBufferData, glBindElementArrayBuffer, glElementArrayBufferData,
      glVertexAttribPointerCmd, glEnableVertexAttribArrayCmd,
      glDeleteVertexArray, glDeleteBuffer, countCmds, isGenVertexArray,
      isDeleteVertexArray, isGenBuffer, isDeleteBuffer, List.filter_append]

/-- C4 witness: the cube geometry of main.cpp is well formed, and the
lifecycle property holds for it. -/
theorem mesh_construct_destroy_no_leak_witness :
    wellFormedMeshInput cubeVertices cubeIndices
    ∧ ((Mesh.destroy (Mesh.construct cubeVertices cubeIndices GLRun.init).1
          (Mesh.construct cubeVertices cubeIndices GLRun.init).2).st.liveVertexArrays = []
        ∧ (Mesh.destroy (Mesh.construct cubeVertices cubeIndices GLRun.init).1
            (Mesh.construct cubeVertices cubeIndices GLRun.init).2).st.liveBuffers = []) :=
  ⟨by decide,
   (mesh_construct_destroy_no_leak cubeVertices cubeIndices (by decide)).2.2.2.2.2.1,
   (mesh_construct_destroy_no_leak cubeVertices cubeIndices (by decide)).2.2.2.2.2.2⟩

/-- Helper: the result of one `Shader` construction on a pristine device, in
closed form.  The command trace and the returned handle are independent of
the compiler's and linker's verdicts; only the console output and the stored
link status depend on them. -/
theorem shaderConstruct_eq (env : GLEnv) (vs fs : String) :
    Shader.construct env vs fs GLRun.init =
      (⟨3⟩,
       { st := { nextName := 4, liveVertexArrays := [], liveBuffers := [],
                 shaders := [],
                 programs := [(3, { attached := [1, 2],
                                    linkStatus := env.linkOk (linkedPair vs fs),
                                    infoLog := env.linkLog (linkedPair vs fs),
                                    linkedSources := linkedPair vs fs })],
                 boundVertexArray := 0, boundArrayBuffer := 0,
                 boundElementArrayBuffer := 0, currentProgram := 0,
                 uniformState := [], depthTestEnabled := false,
                 clearColorState := (0, 0, 0, 1) },
         trace := shaderConstructTrace vs fs,
         out :=
           (([] ++
             (if env.compileOk GLShaderType.vertex vs then []
              else ["ERROR::SHADER::" ++ "VERTEX" ++ "::COMPILATION_FAILED\n" ++
                    (env.compileLog GLShaderType.vertex vs).take 511])) ++
            (if env.compileOk GLShaderType.fragment fs then []
             else ["ERROR::SHADER::" ++ "FRAGMENT" ++ "::COMPILATION_FAILED\n" ++
                   (env.compileLog GLShaderType.fragment fs).take 511])) ++
           (if env.linkOk (linkedPair vs fs) then []
            else ["ERROR::PROGRAM::LINKING_FAILED\n" ++
                  (env.linkLog (linkedPair vs fs)).take 511]) }) := rfl

/-- C5: for every shader source pair for which a stage fails to compile,
`Shader` construction still runs to completion — the command trace is the
full constructor sequence through program creation, link and shader cleanup,
produced unconditionally, and the object holding the created program handle
is returned — and the console output contains a diagnostic naming the
failing stage ("VERTEX" or "FRAGMENT") together with the compiler-produced
log (truncated to the 512-byte retrieval buffer). -/
theorem shader_compile_failure_logged_not_fatal (env : GLEnv) (vs fs : String) :
    (Shader.construct env vs fs GLRun.init).2.trace = shaderConstructTrace vs fs
    ∧ (Shader.construct env vs fs GLRun.init).1.programID = 3
    ∧ (env.compileOk GLShaderType.vertex vs = false →
        "ERROR::SHADER::" ++ "VERTEX" ++ "::COMPILATION_FAILED\n" ++
            (env.compileLog GLShaderType.vertex vs).take 511
          ∈ (Shader.construct env vs fs GLRun.init).2.out)
    ∧ (env.compileOk GLShaderType.fragment fs = false →
        "ERROR::SHADER::" ++ "FRAGMENT" ++ "::COMPILATION_FAILED\n" ++
            (env.compileLog GLShaderType.fragment fs).take 511
          ∈ (Shader.construct env vs fs GLRun.init).2.out) :=
  ⟨by rw [shaderConstruct_eq],
   by rw [shaderConstruct_eq],
   fun hv => by rw [shaderConstruct_eq]; simp [hv],
   fun hf => by rw [shaderConstruct_eq]; simp [hf]⟩

/-- C5 witness: under a compiler rejecting the vertex stage, construction
completes and the VERTEX diagnostic (with the log) is on the console. -/
theorem shader_compile_failure_logged_not_fatal_witness :
    envVertexFails.compileOk GLShaderType.vertex "v" = false
    ∧ "ERROR::SHADER::" ++ "VERTEX" ++ "::COMPILATION_FAILED\n" ++
          (envVertexFails.compileLog GLShaderType.vertex "v").take 511
        ∈ (Shader.construct envVertexFails "v" "f" GLRun.init).2.out :=
  ⟨rfl, (shader_compile_failure_logged_not_fatal envVertexFails "v" "f").2.2.1 rfl⟩

/-- C6: for every shader source pair whose stages compile but whose program
fails to link, the console carries the link diagnostic (with the linker
log), the stored program handle is exactly the non-null handle
`glCreateProgram` returned, no typed failure is surfaced (the constructor's
only outputs are the object and the console text) and construction still
runs the full call sequence. -/
theorem shader_link_failure_logged_handle_kept (env : GLEnv) (vs fs : String)
    (hv : env.compileOk GLShaderType.vertex vs = true)
    (hf : env.compileOk GLShaderType.fragment fs = true)
    (hl : env.linkOk (linkedPair vs fs) = false) :
    "ERROR::PROGRAM::LINKING_FAILED\n" ++ (env.linkLog (linkedPair vs fs)).take 511
        ∈ (Shader.construct env vs fs GLRun.init).2.out
    ∧ (Shader.construct env vs fs GLRun.init).1.programID = 3
    ∧ (Shader.construct env vs fs GLRun.init).1.programID ≠ 0
    ∧ (Shader.construct env vs fs GLRun.init).2.out =
        ["ERROR::PROGRAM::LINKING_FAILED\n" ++ (env.linkLog (linkedPair vs fs)).take 511]
    ∧ (Shader.construct env vs fs GLRun.init).2.trace = shaderConstructTrace vs fs := by
  rw [shaderConstruct_eq]
  refine ⟨?_, ?_, ?_, ?_, ?_⟩ <;> simp [hv, hf, hl]

/-- C6 witness: with a failing linker, the diagnostic is produced and the
handle stored in the object is the non-null created handle. -/
theorem shader_link_failure_logged_handle_kept_witness :
    envLinkFails.compileOk GLShaderType.vertex "v" = true
    ∧ envLinkFails.compileOk GLShaderType.fragment "f" = true
    ∧ envLinkFails.linkOk (linkedPair "v" "f") = false
    ∧ (Shader.construct envLinkFails "v" "f" GLRun.init).1.programID ≠ 0 :=
  ⟨rfl, rfl, rfl,
   (shader_link_failure_logged_handle_kept envLinkFails "v" "f" rfl rfl rfl).2.2.1⟩

/-- C7: for every uniform name that does not resolve to an active uniform of
the linked program, `setFloat` and `setMat4` change no graphics-device state
and raise no error (console output unchanged): the location lookup yields
the invalid-location sentinel -1 and the subsequent uniform write call is
ignored by the device. -/
theorem uniform_name_absent_silent_noop (env : GLEnv) (vs fs name : String)
    (value : Rat) (m4 : Mat4)
    (hl : env.linkOk (linkedPair vs fs) = true)
    (habs : name ∉ env.activeUniforms (linkedPair vs fs)) :
    glGetUniformLocation env (Shader.construct env vs fs GLRun.init).2.st.programs
        (Shader.construct env vs fs GLRun.init).1.programID name = -1
    ∧ (Shader.setFloat env (Shader.construct env vs fs GLRun.init).1 name value
        (Shader.construct env vs fs GLRun.init).2).st =
      (Shader.construct env vs fs GLRun.init).2.st
    ∧ (Shader.setFloat env (Shader.construct env vs fs GLRun.init).1 name value
        (Shader.construct env vs fs GLRun.init).2).out =
      (Shader.construct env vs fs GLRun.init).2.out
    ∧ (Shader.setMat4 env (Shader.construct env vs fs GLRun.init).1 name m4
        (Shader.construct env vs fs GLRun.init).2).st =
      (Shader.construct env vs fs GLRun.init).2.st
    ∧ (Shader.setMat4 env (Shader.construct env vs fs GLRun.init).1 name m4
        (Shader.construct env vs fs GLRun.init).2).out =
      (Shader.construct env vs fs GLRun.init).2.out := by
  rw [shaderConstruct_eq]
  refine ⟨?_, ?_, ?_, ?_, ?_⟩ <;>
    simp [Shader.setFloat, Shader.setMat4, glGetUniformLocation, glUniform1f,
      glUniformMatrix4fv, assocFind, habs]

/-- C7 witness: querying the absent name `"missing"` yields -1 and the
`setFloat` write leaves the device state unchanged. -/
theorem uniform_name_absent_silent_noop_witness :
    envMvpOnly.linkOk (linkedPair "v" "f") = true
    ∧ "missing" ∉ envMvpOnly.activeUniforms (linkedPair "v" "f")
    ∧ glGetUniformLocation envMvpOnly
        (Shader.construct envMvpOnly "v" "f" GLRun.init).2.st.programs
        (Shader.construct envMvpOnly "v" "f" GLRun.init).1.programID "missing" = -1 :=
  ⟨rfl, by decide,
   (uniform_name_absent_silent_noop envMvpOnly "v" "f" "missing" 0 Mat4.identity
      rfl (by decide)).1⟩


/-- Helper: closed form of one iteration of the `while (running)` loop — the
commands issued, in order; the console untouched; the state deltas; the
variable updates.  Only `v.angle` (not the camera) feeds the render. -/
theorem mainIteration_eq (env : GLEnv) (shader : Shader) (cube : Mesh)
    (events : List SDLEvent) (k : Keys) (v : LoopVars) (r : GLRun) :
    mainIteration env shader cube events k v r =
      ({ running := pollQuit events v.running,
         cameraX :=
           if k.a then (if k.d then v.cameraX + moveSpeed else v.cameraX) - moveSpeed
           else (if k.d then v.cameraX + moveSpeed else v.cameraX),
         cameraY :=
           if k.lshift then (if k.space then v.cameraY + moveSpeed else v.cameraY) - moveSpeed
           else (if k.space then v.cameraY + moveSpeed else v.cameraY),
         cameraZ :=
           if k.s then (if k.w then v.cameraZ + moveSpeed else v.cameraZ) - moveSpeed
           else (if k.w then v.cameraZ + moveSpeed else v.cameraZ),
         angle := v.angle + 0.0025 },
       { st := { r.st with
                 boundVertexArray := 0,
                 currentProgram := shader.programID,
                 uniformState :=
                   if glGetUniformLocation env r.st.programs shader.programID "mvp" = -1
                      ∨ shader.programID = 0 then r.st.uniformState
                   else (shader.programID,
                         glGetUniformLocation env r.st.programs shader.programID "mvp",
                         UniformVal.m4Val (mvpMatrix v.angle)) :: r.st.uniformState,
                 clearColorState := (0.2, 0.3, 0.3, 1) },
         trace := r.trace ++
           [GLCmd.clearColorCmd 0.2 0.3 0.3 1, GLCmd.clearCmd true true,
            GLCmd.useProgram shader.programID,
            GLCmd.uniformMatrix4fv
              (glGetUniformLocation env r.st.programs shader.programID "mvp")
              (mvpMatrix v.angle),
            GLCmd.bindVertexArray cube.VAO,
            GLCmd.drawElements DrawMode.triangles cube.indexCount,
            GLCmd.bindVertexArray 0, GLCmd.swapWindow],
         out := r.out }) := by
  simp [mainIteration, glClearColor, glClear, Shader.use, glUseProgram,
    Shader.setMat4, glUniformMatrix4fv, Mesh.draw, glBindVertexArray,
    glDrawElementsTriangles, sdlGLSwapWindow]


/-- Helper: once `running` is false the loop body never executes again. -/
theorem runLoop_stopped (p : Platform) (sh : Shader) (cb : Mesh)
    (fuel i : Nat) (v : LoopVars) (r : GLRun) (h : v.running = false) :
    runLoop p sh cb i fuel v r = (v, r) := by
  cases fuel <;> simp [runLoop, h]


/-- Helper: a window of iterations in which no events are queued keeps
`running` true, advances `angle` by 0.0025 per iteration, and moves each
camera axis by `moveSpeed` times (positive-key count − negative-key count). -/
theorem runLoop_noEvents (p : Platform) (sh : Shader) (cb : Mesh) :
    ∀ (fuel i : Nat) (v : LoopVars) (r : GLRun), v.running = true →
    (∀ j, j < fuel → p.eventBatches (i + j) = []) →
    (runLoop p sh cb i fuel v r).1.running = true
    ∧ (runLoop p sh cb i fuel v r).1.angle = v.angle + fuel * (0.0025 : Rat)
    ∧ (runLoop p sh cb i fuel v r).1.cameraX =
        v.cameraX + moveSpeed *
          ((heldCount (fun k => k.d) p.keys i fuel : Rat) -
           (heldCount (fun k => k.a) p.keys i fuel : Rat))
    ∧ (runLoop p sh cb i fuel v r).1.cameraY =
        v.cameraY + moveSpeed *
          ((heldCount (fun k => k.space) p.keys i fuel : Rat) -
           (heldCount (fun k => k.lshift) p.keys i fuel : Rat))
    ∧ (runLoop p sh cb i fuel v r).1.cameraZ =
        v.cameraZ + moveSpeed *
          ((heldCount (fun k => k.w) p.keys i fuel : Rat) -
           (heldCount (fun k => k.s) p.keys i fuel : Rat)) := by
  intro fuel
  induction fuel with
  | zero => intro i v r hrun _; simp [runLoop, hrun, heldCount]
  | succ fuel ih =>
      intro i v r hrun hev
      have hev0 : p.eventBatches i = [] := by
        have := hev 0 (by omega)
        simpa using this
      have hevs : ∀ j, j < fuel → p.eventBatches (i + 1 + j) = [] := by
        intro j hj
        have := hev (j + 1) (by omega)
        have harith : i + (j + 1) = i + 1 + j := by omega
        rwa [harith] at this
      rw [runLoop]
      simp only [hrun, if_true]
      have hv1run :
          (mainIteration p.env sh cb (p.eventBatches i) (p.keys i) v r).1.running = true := by
        simp [mainIteration_eq, hev0, pollQuit, hrun]
      obtain ⟨h1, h2, h3, h4, h5⟩ :=
        ih (i + 1) (mainIteration p.env sh cb (p.eventBatches i) (p.keys i) v r).1
          (mainIteration p.env sh cb (p.eventBatches i) (p.keys i) v r).2 hv1run hevs
      refine ⟨h1, ?_, ?_, ?_, ?_⟩
      · rw [h2]
        simp only [mainIteration_eq]
        push_cast
        ring
      · rw [h3]
        simp only [mainIteration_eq, heldCount]
        by_cases hd : (p.keys i).d = true <;> by_cases ha : (p.keys i).a = true <;>
          simp [hd, ha] <;> push_cast <;> ring
      · rw [h4]
        simp only [mainIteration_eq, heldCount]
        by_cases hs : (p.keys i).space = true <;> by_cases hl : (p.keys i).lshift = true <;>
          simp [hs, hl] <;> push_cast <;> ring
      · rw [h5]
        simp only [mainIteration_eq, heldCount]
        by_cases hw : (p.keys i).w = true <;> by_cases hss : (p.keys i).s = true <;>
          simp [hw, hss] <;> push_cast <;> ring

/-- Helper: if the selected key is down in every sampled frame of the
window, the held count is the window length. -/
theorem heldCount_of_all (sel : Keys → Bool) (keys : Nat → Keys) :
    ∀ (fuel i : Nat), (∀ j, j < fuel → sel (keys (i + j)) = true) →
    heldCount sel keys i fuel = fuel := by
  intro fuel
  induction fuel with
  | zero => intro i _; rfl
  | succ fuel ih =>
      intro i h
      have h0 : sel (keys i) = true := by simpa using h 0 (by omega)
      have hr := ih (i + 1) fun j hj => by
        have := h (j + 1) (by omega)
        rwa [show i + (j + 1) = i + 1 + j by omega] at this
      simp [heldCount, h0, hr]
      omega

/-- Helper: if the selected key is up in every sampled frame of the window,
the held count is zero. -/
theorem heldCount_of_none (sel : Keys → Bool) (keys : Nat → Keys) :
    ∀ (fuel i : Nat), (∀ j, j < fuel → sel (keys (i + j)) = false) →
    heldCount sel keys i fuel = 0 := by
  intro fuel
  induction fuel with
  | zero => intro i _; rfl
  | succ fuel ih =>
      intro i h
      have h0 : sel (keys i) = false := by simpa using h 0 (by omega)
      have hr := ih (i + 1) fun j hj => by
        have := h (j + 1) (by omega)
        rwa [show i + (j + 1) = i + 1 + j by omega] at this
      simp [heldCount, h0, hr]

/-- C1: running the loop for N iterations with no queued events, if the
"move right" key D is held (and A is not) in every sampled frame, the camera
X variable ends at exactly its initial value plus N × moveSpeed; and in
general each camera coordinate moves by moveSpeed times the held-count
difference of exactly its own two keys (X by D/A, Y by Space/LShift, Z by
W/S), so no other key affects it. -/
theorem camera_integration_exact (p : Platform) (sh : Shader) (cb : Mesh)
    (N : Nat) (r : GLRun)
    (hev : ∀ j, j < N → p.eventBatches j = []) :
    ((∀ j, j < N → (p.keys j).d = true ∧ (p.keys j).a = false) →
      (runLoop p sh cb 0 N initLoopVars r).1.cameraX =
        initLoopVars.cameraX + (N : Rat) * moveSpeed)
    ∧ (runLoop p sh cb 0 N initLoopVars r).1.cameraX =
        initLoopVars.cameraX + moveSpeed *
          ((heldCount (fun k => k.d) p.keys 0 N : Rat) -
           (heldCount (fun k => k.a) p.keys 0 N : Rat))
    ∧ (runLoop p sh cb 0 N initLoopVars r).1.cameraY =
        initLoopVars.cameraY + moveSpeed *
          ((heldCount (fun k => k.space) p.keys 0 N : Rat) -
           (heldCount (fun k => k.lshift) p.keys 0 N : Rat))
    ∧ (runLoop p sh cb 0 N initLoopVars r).1.cameraZ =
        initLoopVars.cameraZ + moveSpeed *
          ((heldCount (fun k => k.w) p.keys 0 N : Rat) -
           (heldCount (fun k => k.s) p.keys 0 N : Rat)) := by
  have hev0 : ∀ j, j < N → p.eventBatches (0 + j) = [] := by
    intro j hj; simpa using hev j hj
  obtain ⟨_, _, h3, h4, h5⟩ :=
    runLoop_noEvents p sh cb N 0 initLoopVars r rfl hev0
  refine ⟨fun hd => ?_, h3, h4, h5⟩
  have hcd : heldCount (fun k => k.d) p.keys 0 N = N := by
    apply heldCount_of_all
    intro j hj
    have := (hd j (by omega)).1
    simpa using this
  have hca : heldCount (fun k => k.a) p.keys 0 N = 0 := by
    apply heldCount_of_none
    intro j hj
    have := (hd j (by omega)).2
    simpa using this
  rw [h3, hcd, hca]
  push_cast
  ring

/-- Helper: the command trace appended by one `Shader` construction from any
start state (three fresh names, in order). -/
theorem shader_construct_trace (env : GLEnv) (vs fs : String) (r : GLRun) :
    (Shader.construct env vs fs r).2.trace = r.trace ++
      [GLCmd.createShader GLShaderType.vertex r.st.nextName,
       GLCmd.shaderSource r.st.nextName vs,
       GLCmd.compileShader r.st.nextName,
       GLCmd.createShader GLShaderType.fragment (r.st.nextName + 1),
       GLCmd.shaderSource (r.st.nextName + 1) fs,
       GLCmd.compileShader (r.st.nextName + 1),
       GLCmd.createProgram (r.st.nextName + 2),
       GLCmd.attachShader (r.st.nextName + 2) r.st.nextName,
       GLCmd.attachShader (r.st.nextName + 2) (r.st.nextName + 1),
       GLCmd.linkProgram (r.st.nextName + 2),
       GLCmd.deleteShader r.st.nextName,
       GLCmd.deleteShader (r.st.nextName + 1)] := by
  simp [Shader.construct, glCreateShader, glShaderSource, glCompileShader,
    Shader.checkShaderCompileErrors, glCreateProgram, glAttachShader,
    glLinkProgram, Shader.checkProgramLinkErrors, glDeleteShader]

/-- Helper: the constructed `Shader` stores the program handle, the third
fresh name. -/
theorem shader_construct_fst (env : GLEnv) (vs fs : String) (r : GLRun) :
    (Shader.construct env vs fs r).1 = ⟨r.st.nextName + 2⟩ := by
  simp [Shader.construct, glCreateShader, glShaderSource, glCompileShader,
    Shader.checkShaderCompileErrors, glCreateProgram, glAttachShader,
    glLinkProgram, Shader.checkProgramLinkErrors, glDeleteShader]

/-- Helper: `Shader` construction consumes three fresh names. -/
theorem shader_construct_nextName (env : GLEnv) (vs fs : String) (r : GLRun) :
    (Shader.construct env vs fs r).2.st.nextName = r.st.nextName + 3 := by
  simp [Shader.construct, glCreateShader, glShaderSource, glCompileShader,
    Shader.checkShaderCompileErrors, glCreateProgram, glAttachShader,
    glLinkProgram, Shader.checkProgramLinkErrors, glDeleteShader]

/-- Helper: the command trace appended by one `Mesh` construction from any
start state. -/
theorem mesh_construct_trace (vertices : List Rat) (indices : List Nat) (r : GLRun) :
    (Mesh.construct vertices indices r).2.trace = r.trace ++
      [GLCmd.genVertexArray r.st.nextName,
       GLCmd.genBuffer (r.st.nextName + 1),
       GLCmd.genBuffer (r.st.nextName + 2),
       GLCmd.bindVertexArray r.st.nextName,
       GLCmd.bindArrayBuffer (r.st.nextName + 1),
       GLCmd.arrayBufferData (vertices.length * 4),
       GLCmd.bindElementArrayBuffer (r.st.nextName + 2),
       GLCmd.elementArrayBufferData (indices.length * 4),
       GLCmd.vertexAttribPointer 0 3 12, GLCmd.enableVertexAttribArray 0,
       GLCmd.bindArrayBuffer 0, GLCmd.bindVertexArray 0] := by
  simp [Mesh.construct, Mesh.setupMesh, glGenVertexArrays1, glGenBuffers1,
    glBindVertexArray, glBindArrayBuffer, glArrayBufferData,
    glBindElementArrayBuffer, glElementArrayBufferData,
    glVertexAttribPointerCmd, glEnableVertexAttribArrayCmd]

/-- Helper: the constructed `Mesh` stores the three fresh handles and the
index-list length. -/
theorem mesh_construct_fst (vertices : List Rat) (indices : List Nat) (r : GLRun) :
    (Mesh.construct vertices indices r).1 =
      ⟨r.st.nextName, r.st.nextName + 1, r.st.nextName + 2, indices.length⟩ := by
  simp [Mesh.construct, Mesh.setupMesh, glGenVertexArrays1, glGenBuffers1,
    glBindVertexArray, glBindArrayBuffer, glArrayBufferData,
    glBindElementArrayBuffer, glElementArrayBufferData,
    glVertexAttribPointerCmd, glEnableVertexAttribArrayCmd]

/-- Helper: the destructor's command trace — the three deletes, in order. -/
theorem mesh_destroy_trace (m : Mesh) (r : GLRun) :
    (Mesh.destroy m r).trace = r.trace ++
      [GLCmd.deleteVertexArray m.VAO, GLCmd.deleteBuffer m.VBO,
       GLCmd.deleteBuffer m.EBO] := by
  simp [Mesh.destroy, glDeleteVertexArray, glDeleteBuffer]

/-- Helper: the `Shader` destructor deletes the program. -/
theorem shader_destroy_trace (sh : Shader) (r : GLRun) :
    (Shader.destroy sh r).trace = r.trace ++ [GLCmd.deleteProgram sh.programID] := by
  simp [Shader.destroy, glDeleteProgram]

/-- Helper: command counts add over trace concatenation. -/
theorem countCmds_append (pred : GLCmd → Bool) (a b : List GLCmd) :
    countCmds pred (a ++ b) = countCmds pred a + countCmds pred b := by
  simp [countCmds, List.filter_append]

/-- C3: if initialization succeeds and the only queued input event is an
immediate quit, the application performs exactly one initialization (one
`SDL_Init`, one window, one context), executes exactly one main-loop
iteration — the one that detects the quit (one buffer swap, one draw) —
then tears down cleanly: exactly one context deletion, one window
destruction and one `SDL_Quit`, and the process exit code is 0. -/
theorem immediate_quit_single_iteration_clean_exit (p : Platform) (fuel : Nat)
    (h1 : p.sdlInitOk = true) (h2 : p.windowOk = true)
    (h3 : p.contextOk = true) (h4 : p.glewOk = true)
    (hq : p.eventBatches 0 = [SDLEvent.quit]) (hf : 1 ≤ fuel) :
    (mainProgram p fuel).1 = 0
    ∧ countCmds isSdlInit (mainProgram p fuel).2.trace = 1
    ∧ countCmds isCreateWindow (mainProgram p fuel).2.trace = 1
    ∧ countCmds isCreateContext (mainProgram p fuel).2.trace = 1
    ∧ countCmds isSwapWindow (mainProgram p fuel).2.trace = 1
    ∧ countCmds isDrawElements (mainProgram p fuel).2.trace = 1
    ∧ countCmds isDeleteContext (mainProgram p fuel).2.trace = 1
    ∧ countCmds isDestroyWindow (mainProgram p fuel).2.trace = 1
    ∧ countCmds isSdlQuit (mainProgram p fuel).2.trace = 1 := by
  obtain ⟨m, rfl⟩ : ∃ m, fuel = m + 1 := ⟨fuel - 1, by omega⟩
  simp only [mainProgram, h1, h2, h3, h4]
  norm_num
  rw [runLoop]
  simp only [initLoopVars]
  norm_num
  rw [runLoop_stopped]
  · rw [shader_destroy_trace, mesh_destroy_trace]
    simp only [mainIteration_eq]
    simp only [mesh_construct_trace, shader_construct_trace, glEnableDepthTest]
    simp [countCmds_append, countCmds, isSdlInit, isCreateWindow, isCreateContext,
      isSwapWindow, isDrawElements, isDeleteContext, isDestroyWindow, isSdlQuit,
      GLRun.init, GLState.init]
  · simp [mainIteration_eq, hq, pollQuit, initLoopVars]

/-- Helper: two runs of the loop over platforms with the same environment
and event stream, differing only in keyboard samples (and camera values),
produce the same `GLRun` — same device state, same command trace, same
console output — and agree on `running` and `angle`. -/
theorem runLoop_keys_independent (p1 p2 : Platform)
    (henv : p1.env = p2.env) (hev : p1.eventBatches = p2.eventBatches)
    (sh : Shader) (cb : Mesh) :
    ∀ (fuel i : Nat) (v1 v2 : LoopVars) (r : GLRun),
    v1.running = v2.running → v1.angle = v2.angle →
    (runLoop p1 sh cb i fuel v1 r).2 = (runLoop p2 sh cb i fuel v2 r).2
    ∧ (runLoop p1 sh cb i fuel v1 r).1.running =
      (runLoop p2 sh cb i fuel v2 r).1.running
    ∧ (runLoop p1 sh cb i fuel v1 r).1.angle =
      (runLoop p2 sh cb i fuel v2 r).1.angle := by
  intro fuel
  induction fuel with
  | zero => intro i v1 v2 r hrun hang; simp [runLoop, hrun, hang]
  | succ fuel ih =>
      intro i v1 v2 r hrun hang
      rw [runLoop, runLoop]
      by_cases hr : v1.running = true
      · have hr2 : v2.running = true := by rw [← hrun]; exact hr
        simp only [hr, hr2, if_true]
        have hglr :
            (mainIteration p1.env sh cb (p1.eventBatches i) (p1.keys i) v1 r).2 =
            (mainIteration p2.env sh cb (p2.eventBatches i) (p2.keys i) v2 r).2 := by
          rw [mainIteration_eq, mainIteration_eq, hang, henv, hev]
        have hvrun :
            (mainIteration p1.env sh cb (p1.eventBatches i) (p1.keys i) v1 r).1.running =
            (mainIteration p2.env sh cb (p2.eventBatches i) (p2.keys i) v2 r).1.running := by
          simp [mainIteration_eq, hrun, hev]
        have hvang :
            (mainIteration p1.env sh cb (p1.eventBatches i) (p1.keys i) v1 r).1.angle =
            (mainIteration p2.env sh cb (p2.eventBatches i) (p2.keys i) v2 r).1.angle := by
          simp [mainIteration_eq, hang]
        rw [hglr]
        exact ih (i + 1) _ _ _ hvrun hvang
      · have hrf : v1.running = false := by
          revert hr; cases v1.running <;> simp
        have hrf2 : v2.running = false := by rw [← hrun]; exact hrf
        simp [hrf, hrf2, hrun, hang]

/-- C2: two runs of the program that differ only in the keyboard state
sampled each frame (same frame count, same event stream) are
indistinguishable: the entire result — exit code, device state, the full
command trace (hence the sequence of uploaded mvp matrices and of draw
calls) and the console output — is identical, because the view matrix is
the fixed pre-loop constant `lookAt ((2,2,2), origin, up)` and the camera
variables feed nothing in the render path. -/
theorem render_output_keyboard_independent (p : Platform) (k1 k2 : Nat → Keys) (fuel : Nat) :
    mainProgram { p with keys := k1 } fuel = mainProgram { p with keys := k2 } fuel
    ∧ view = Mat4.lookAt (2, 2, 2) (0, 0, 0) (0, 1, 0) := by
  refine ⟨?_, rfl⟩
  obtain ⟨a, e, b, c, d, f, g, _⟩ := p
  by_cases h1 : a = true
  · by_cases h2 : b = true
    · by_cases h3 : c = true
      · by_cases h4 : d = true
        · subst h1; subst h2; subst h3; subst h4
          simp only [mainProgram]
          norm_num
          rw [(runLoop_keys_independent
                (Platform.mk true e true true true f g k1)
                (Platform.mk true e true true true f g k2) rfl rfl
                _ _ fuel 0 initLoopVars initLoopVars _ rfl rfl).1]
        · have h4f : d = false := by revert h4; cases d <;> simp
          subst h4f; simp [mainProgram, h1, h2, h3]
      · have h3f : c = false := by revert h3; cases c <;> simp
        subst h3f; simp [mainProgram, h1, h2]
    · have h2f : b = false := by revert h2; cases b <;> simp
      subst h2f; simp [mainProgram, h1]
  · have h1f : a = false := by revert h1; cases a <;> simp
    subst h1f; simp [mainProgram]

/-- C8: each failure in the initialization chain prints a console
diagnostic, releases exactly the resources acquired earlier in the chain
(nothing for `SDL_Init` failure; `SDL_Quit` for window failure; window +
`SDL_Quit` for context failure; context + window + `SDL_Quit` for
extension-loader failure) and exits with status 1; and once the chain
succeeds the exit code is 0 for every compiler/linker outcome, event stream
and keyboard input — the init chain is the only fatal failure site. -/
theorem init_failure_fatal_cleanup_taxonomy (p : Platform) (fuel : Nat) :
    (p.sdlInitOk = false →
      mainProgram p fuel =
        (1, { st := GLState.init, trace := [GLCmd.sdlInit],
              out := ["SDL could not initialize! SDL_Error: " ++ p.sdlError] }))
    ∧ (p.sdlInitOk = true → p.windowOk = false →
      mainProgram p fuel =
        (1, { st := GLState.init,
              trace := [GLCmd.sdlInit, GLCmd.createWindow 0, GLCmd.sdlQuit],
              out := ["Window could not be created! SDL_Error: " ++ p.sdlError] }))
    ∧ (p.sdlInitOk = true → p.windowOk = true → p.contextOk = false →
      mainProgram p fuel =
        (1, { st := GLState.init,
              trace := [GLCmd.sdlInit, GLCmd.createWindow 1, GLCmd.createContext 0,
                        GLCmd.destroyWindow 1, GLCmd.sdlQuit],
              out := ["OpenGL context could not be created! SDL_Error: " ++ p.sdlError] }))
    ∧ (p.sdlInitOk = true → p.windowOk = true → p.contextOk = true → p.glewOk = false →
      mainProgram p fuel =
        (1, { st := GLState.init,
              trace := [GLCmd.sdlInit, GLCmd.createWindow 1, GLCmd.createContext 1,
                        GLCmd.deleteContext 1, GLCmd.destroyWindow 1, GLCmd.sdlQuit],
              out := ["GLEW could not initialize!"] }))
    ∧ (p.sdlInitOk = true → p.windowOk = true → p.contextOk = true → p.glewOk = true →
      (mainProgram p fuel).1 = 0) := by
  refine ⟨fun h1 => by simp [mainProgram, consoleOut, GLRun.init, h1],
          fun h1 h2 => by simp [mainProgram, consoleOut, GLRun.init, h1, h2],
          fun h1 h2 h3 => by simp [mainProgram, consoleOut, GLRun.init, h1, h2, h3],
          fun h1 h2 h3 h4 => by
            simp [mainProgram, consoleOut, GLRun.init, h1, h2, h3, h4],
          fun h1 h2 h3 h4 => by
            simp [mainProgram, consoleOut, GLRun.init, h1, h2, h3, h4]⟩

/-- C10: every iteration of the running loop issues, in fixed order: clear
color + clear, shader activation, upload of the combined
projection·view·model matrix (the model being the rotation about the
vertical axis by the current angle) as the single `"mvp"` uniform, the
indexed draw, and the present; the event drain and keyboard/camera update
precede the render (they determine `running` and the camera variables of
the produced state) while the console is untouched; and the rotation angle
advances by exactly 0.0025 once per frame, hence is strictly monotonically
increasing across frames. -/
theorem loop_iteration_fixed_order_fixed_increment (env : GLEnv) (shader : Shader) (cube : Mesh)
    (events : List SDLEvent) (k : Keys) (v : LoopVars) (r : GLRun)
    (p : Platform) (sh : Shader) (cb : Mesh) (N M : Nat) (r2 : GLRun) :
    (mainIteration env shader cube events k v r).2.trace = r.trace ++
        [GLCmd.clearColorCmd 0.2 0.3 0.3 1, GLCmd.clearCmd true true,
         GLCmd.useProgram shader.programID,
         GLCmd.uniformMatrix4fv
           (glGetUniformLocation env r.st.programs shader.programID "mvp")
           (mvpMatrix v.angle),
         GLCmd.bindVertexArray cube.VAO,
         GLCmd.drawElements DrawMode.triangles cube.indexCount,
         GLCmd.bindVertexArray 0, GLCmd.swapWindow]
    ∧ (mainIteration env shader cube events k v r).2.out = r.out
    ∧ (mainIteration env shader cube events k v r).1.running = pollQuit events v.running
    ∧ (mainIteration env shader cube events k v r).1.angle = v.angle + 0.0025
    ∧ mvpMatrix v.angle =
        Mat4.mul (Mat4.mul projection view)
          (Mat4.rotate Mat4.identity v.angle (0, 1, 0))
    ∧ ((∀ j, j < M → p.eventBatches j = []) → N < M →
        (runLoop p sh cb 0 N initLoopVars r2).1.angle =
          initLoopVars.angle + (N : Rat) * 0.0025
        ∧ (runLoop p sh cb 0 N initLoopVars r2).1.angle <
          (runLoop p sh cb 0 M initLoopVars r2).1.angle) := by
  refine ⟨by simp [mainIteration_eq], by simp [mainIteration_eq],
          by simp [mainIteration_eq], by simp [mainIteration_eq], rfl,
          fun hev hlt => ?_⟩
  have hevN : ∀ j, j < N → p.eventBatches (0 + j) = [] := by
    intro j hj; simpa using hev j (by omega)
  have hevM : ∀ j, j < M → p.eventBatches (0 + j) = [] := by
    intro j hj; simpa using hev j hj
  obtain ⟨_, haN, _, _, _⟩ := runLoop_noEvents p sh cb N 0 initLoopVars r2 rfl hevN
  obtain ⟨_, haM, _, _, _⟩ := runLoop_noEvents p sh cb M 0 initLoopVars r2 rfl hevM
  constructor
  · rw [haN]
  · rw [haN, haM]
    have hcast : (N : Rat) < (M : Rat) := by exact_mod_cast hlt
    have := mul_lt_mul_of_pos_right hcast (by norm_num : (0 : Rat) < 0.0025)
    linarith

/-- C1 witness: with D held and A up for 3 event-free frames, the camera X
variable ends at exactly 3 × moveSpeed. -/
theorem camera_integration_exact_witness :
    (∀ j, j < 3 → platformDHeld.eventBatches j = [])
    ∧ (∀ j, j < 3 → (platformDHeld.keys j).d = true ∧ (platformDHeld.keys j).a = false)
    ∧ (runLoop platformDHeld demoShader demoCube 0 3 initLoopVars GLRun.init).1.cameraX =
        initLoopVars.cameraX + (3 : Rat) * moveSpeed :=
  ⟨by decide, by decide,
   (camera_integration_exact platformDHeld demoShader demoCube 3 GLRun.init
      (by decide)).1 (by decide)⟩

/-- C3 witness: on the quit-immediately platform with one unit of loop fuel,
the exit code is 0 and exactly one frame was presented. -/
theorem immediate_quit_single_iteration_clean_exit_witness :
    platformQuit.sdlInitOk = true
    ∧ platformQuit.eventBatches 0 = [SDLEvent.quit]
    ∧ 1 ≤ 1
    ∧ (mainProgram platformQuit 1).1 = 0
    ∧ countCmds isSwapWindow (mainProgram platformQuit 1).2.trace = 1 :=
  ⟨rfl, rfl, by decide,
   (immediate_quit_single_iteration_clean_exit platformQuit 1 rfl rfl rfl rfl rfl
      (by decide)).1,
   (immediate_quit_single_iteration_clean_exit platformQuit 1 rfl rfl rfl rfl rfl
      (by decide)).2.2.2.2.1⟩

/-- C8 witness: with a failing extension loader, the run releases the
context and window, terminates SDL, and exits with status 1. -/
theorem init_failure_fatal_cleanup_taxonomy_witness :
    platformGlewFails.sdlInitOk = true
    ∧ platformGlewFails.windowOk = true
    ∧ platformGlewFails.contextOk = true
    ∧ platformGlewFails.glewOk = false
    ∧ mainProgram platformGlewFails 0 =
        (1, { st := GLState.init,
              trace := [GLCmd.sdlInit, GLCmd.createWindow 1, GLCmd.createContext 1,
                        GLCmd.deleteContext 1, GLCmd.destroyWindow 1, GLCmd.sdlQuit],
              out := ["GLEW could not initialize!"] }) :=
  ⟨rfl, rfl, rfl, rfl,
   (init_failure_fatal_cleanup_taxonomy platformGlewFails 0).2.2.2.1 rfl rfl rfl rfl⟩

/-- C10 witness: with no events queued, the rotation angle after one frame
is strictly below the angle after two frames. -/
theorem loop_iteration_fixed_order_fixed_increment_witness :
    (∀ j, j < 2 → platformDHeld.eventBatches j = [])
    ∧ 1 < 2
    ∧ (runLoop platformDHeld demoShader demoCube 0 1 initLoopVars GLRun.init).1.angle <
      (runLoop platformDHeld demoShader demoCube 0 2 initLoopVars GLRun.init).1.angle :=
  ⟨by decide, by decide,
   ((loop_iteration_fixed_order_fixed_increment envMvpOnly demoShader demoCube []
       Keys.none initLoopVars GLRun.init platformDHeld demoShader demoCube 1 2
       GLRun.init).2.2.2.2.2 (by decide) (by decide)).2⟩
